import Mathlib

/-!
Verification of the ShopGenie WhatsApp webhook conversation core.

This file gives a shallow embedding of the session/intent-resolution state
machine of the ShopGenie repository: the per-user `session_data` jsonb blob,
the jsonb shallow-merge semantics of `userService.updateUserSession`, the
direct pattern-match cascade of `processMessage` (STEP 3), the active
auth-flow dispatch (STEP 4), the stale-session clearing (STEP 5), and the
step handlers those stages invoke.  The AI classifier dispatch (STEP 6) and
all Cart/Auth/messaging collaborators are treated as external, per the
specification: collaborator answers are supplied through an `Env` record and
fall-through to the classifier is a terminal `Outcome`.
-/

namespace ShopGenie

/-- Values the webhook writes into `session_data.auth_flow`
(`'phone_login'` / `'email_login'`). -/
inductive AuthFlow where
  | phoneLogin
  | emailLogin
deriving DecidableEq

/-- Values the webhook writes into `session_data.auth_step`
(`'phone_input'` / `'otp_input'` / `'email_input'` / `'password_input'`). -/
inductive AuthStep where
  | phoneInput
  | otpInput
  | emailInput
  | passwordInput
deriving DecidableEq

/-- One parsed order item as stored in `session_data.order_items`. -/
structure OrderItem where
  name : String
  quantity : Nat
  unit : String
deriving DecidableEq

/-- A scraped product suggestion (from `getMixedProductSuggestions`). -/
structure Product where
  name : String
  price : String
  retailer : String
  delivery_time : String
deriving DecidableEq

/-- An entry of `session_data.selected_order_items`: the spread
`{...orderItems.find(...), selectedProduct}`.  `base` is `none` when the
spread source was `undefined`. -/
structure SelectedItem where
  base : Option OrderItem
  selectedProduct : Option Product
deriving DecidableEq

/-- The per-user `session_data` jsonb blob, restricted to the top-level keys
this webhook ever writes.  `none` models the key being absent from the
blob. -/
structure Session where
  auth_flow : Option AuthFlow := none
  auth_step : Option AuthStep := none
  retailer : Option String := none
  phone_number : Option String := none
  email : Option String := none
  checkout_mode : Option Bool := none
  checkout_step : Option String := none
  checkout_items : Option (List String) := none
  checkout_current_item : Option Nat := none
  order_mode : Option Bool := none
  order_items : Option (List OrderItem) := none
  order_cart_id : Option Nat := none
  selected_order_items : Option (List SelectedItem) := none
deriving DecidableEq

/-- The canonical empty session (`'{}'::jsonb`): every key absent. -/
def emptySession : Session := {}

/-- One top-level key of the jsonb concatenation `stored || update`: the
update's value wins when the key is present there, otherwise the stored
value survives. -/
def mKey {α : Type} (sv uv : Option α) : Option α :=
  match uv with
  | some v => some v
  | none => sv

/-- `userService.updateUserSession`: the SQL
`session_data = COALESCE(session_data, '{}') || $1` — a top-level shallow
merge of the update object into the stored blob.  Keys absent from the
update are untouched; no key is ever removed. -/
def mergeSession (s p : Session) : Session where
  auth_flow := mKey s.auth_flow p.auth_flow
  auth_step := mKey s.auth_step p.auth_step
  retailer := mKey s.retailer p.retailer
  phone_number := mKey s.phone_number p.phone_number
  email := mKey s.email p.email
  checkout_mode := mKey s.checkout_mode p.checkout_mode
  checkout_step := mKey s.checkout_step p.checkout_step
  checkout_items := mKey s.checkout_items p.checkout_items
  checkout_current_item := mKey s.checkout_current_item p.checkout_current_item
  order_mode := mKey s.order_mode p.order_mode
  order_items := mKey s.order_items p.order_items
  order_cart_id := mKey s.order_cart_id p.order_cart_id
  selected_order_items := mKey s.selected_order_items p.selected_order_items

/-- Merging the empty update object is the identity on the stored blob. -/
theorem mergeSession_empty (s : Session) : mergeSession s {} = s := rfl

/-- JavaScript `x || 'default'` on an optional string field (both `undefined`
and the empty string are falsy). -/
def jsOrStr (o : Option String) (d : String) : String :=
  match o with
  | some v => if v = "" then d else v
  | none => d

/-- Truthiness of `userSession.checkout_mode` (the code only ever writes
`true`). -/
def truthyCheckout (s : Session) : Bool := s.checkout_mode.getD false

/-- Truthiness of `userSession.order_mode` (the code only ever writes
`true`). -/
def truthyOrder (s : Session) : Bool := s.order_mode.getD false

/-- JavaScript `\s` character class, as used by the webhook's regexes. -/
def isWsChar (c : Char) : Bool := c.isWhitespace

/-- JavaScript `\w` character class: `[A-Za-z0-9_]`. -/
def isWordChar (c : Char) : Bool := c.isAlphanum || c = '_'

/-- JavaScript `.` excludes line terminators; `(.+)$` therefore rejects a
remainder containing them. -/
def noLineBreak (cs : List Char) : Bool :=
  cs.all fun c => c != '\n' && c != '\r'

/-- `String.prototype.trim`: strip leading and trailing whitespace. -/
def jsTrim (s : String) : String :=
  String.mk (((s.data.dropWhile isWsChar).reverse.dropWhile isWsChar).reverse)

/-- `String.prototype.toLowerCase` (ASCII case folding). -/
def jsToLower (s : String) : String :=
  String.mk (s.data.map Char.toLower)

/-- `String.prototype.split(sep)` for a one-character separator. -/
def splitChar (sep : Char) : List Char → List (List Char)
  | [] => [[]]
  | c :: cs =>
    let ps := splitChar sep cs
    if c = sep then [] :: ps
    else
      match ps with
      | p :: rest => (c :: p) :: rest
      | [] => [[c]]

/-- `parseInt` on a captured digit string. -/
def digitsToNat (ds : List Char) : Nat :=
  ds.foldl (fun n c => n * 10 + (c.toNat - '0'.toNat)) 0

/-- `lowerMessage.startsWith('login ')`, via list prefixes. -/
def strStartsWith (s p : String) : Bool :=
  p.data.isPrefixOf s.data

/-- The product-selection regex `^(\d+)\s+for\s+(.+)$` (case-insensitive on
an already lowercased, trimmed message): returns
`(parseInt(match[1]), match[2].trim())`. -/
def matchNumericFor (m : String) : Option (Nat × String) :=
  let cs := m.data
  let ds := cs.takeWhile Char.isDigit
  let r1 := cs.dropWhile Char.isDigit
  if ds.isEmpty then none
  else
    let w1 := r1.takeWhile isWsChar
    let r2 := r1.dropWhile isWsChar
    if w1.isEmpty then none
    else
      match r2 with
      | 'f' :: 'o' :: 'r' :: r3 =>
        let w2 := r3.takeWhile isWsChar
        let r4 := r3.dropWhile isWsChar
        if w2.isEmpty then none
        else if r4.isEmpty then none
        else if !(noLineBreak r4) then none
        else some (digitsToNat ds, jsTrim (String.mk r4))
      | _ => none

/-- The bulk-selection regex `^all\s+(\d+)$`. -/
def matchAllSel (m : String) : Option Nat :=
  match m.data with
  | 'a' :: 'l' :: 'l' :: r1 =>
    let w1 := r1.takeWhile isWsChar
    let r2 := r1.dropWhile isWsChar
    if w1.isEmpty then none
    else
      let ds := r2.takeWhile Char.isDigit
      let r3 := r2.dropWhile Char.isDigit
      if ds.isEmpty then none
      else if r3.isEmpty then some (digitsToNat ds)
      else none
  | _ => none

/-- The retailer-selection regex `^(\w+)\s+for\s+(.+)$`: returns
`(match[1].toLowerCase(), match[2].trim())`. -/
def matchWordFor (m : String) : Option (String × String) :=
  let cs := m.data
  let ws := cs.takeWhile isWordChar
  let r1 := cs.dropWhile isWordChar
  if ws.isEmpty then none
  else
    let w1 := r1.takeWhile isWsChar
    let r2 := r1.dropWhile isWsChar
    if w1.isEmpty then none
    else
      match r2 with
      | 'f' :: 'o' :: 'r' :: r3 =>
        let w2 := r3.takeWhile isWsChar
        let r4 := r3.dropWhile isWsChar
        if w2.isEmpty then none
        else if r4.isEmpty then none
        else if !(noLineBreak r4) then none
        else some (jsToLower (String.mk ws), jsTrim (String.mk r4))
      | _ => none

/-- The skip regex `^skip\s+(.+)$`. -/
def matchSkip (m : String) : Option String :=
  match m.data with
  | 's' :: 'k' :: 'i' :: 'p' :: r1 =>
    let w1 := r1.takeWhile isWsChar
    let r2 := r1.dropWhile isWsChar
    if w1.isEmpty then none
    else if r2.isEmpty then none
    else if !(noLineBreak r2) then none
    else some (jsTrim (String.mk r2))
  | _ => none

/-- The OTP regex `^\d{6}$`, applied to the raw message. -/
def isSixDigits (msg : String) : Bool :=
  msg.length = 6 && msg.data.all Char.isDigit

/-- The phone regex `^\+?[1-9]\d{1,14}$`, applied to
`phoneNumber.replace(/\s/g, '')`. -/
def validPhone (msg : String) : Bool :=
  let cs := msg.data.filter fun c => !(isWsChar c)
  let cs2 := match cs with
    | '+' :: r => r
    | r => r
  match cs2 with
  | c :: rest =>
    (c.isDigit && c != '0') && rest.all Char.isDigit &&
      decide (1 ≤ rest.length) && decide (rest.length ≤ 14)
  | [] => false

/-- The email regex `^[^\s@]+@[^\s@]+\.[^\s@]+$`: exactly one `@`, a
nonempty local part, no whitespace anywhere, and a dot in the domain that is
neither its first nor its last character. -/
def validEmail (msg : String) : Bool :=
  match splitChar '@' msg.data with
  | [lpart, dpart] =>
    !lpart.isEmpty && !dpart.isEmpty &&
      msg.data.all (fun c => !(isWsChar c)) &&
      ((dpart.drop 1).dropLast.contains '.')
  | _ => false

/-- `config/retailers`: the names of the supported retailers. -/
def supportedRetailerNames : List String := ["zepto", "blinkit", "instamart"]

/-- `getRetailerByName`: case-insensitive lookup in the supported list. -/
def getRetailerByName (name : String) : Option String :=
  supportedRetailerNames.find? fun r => jsToLower r = jsToLower name

/-- A stored credential row, as returned by
`authService.getAllRetailerCredentials`. -/
structure StoredCredential where
  retailer : String
  login_id : String
  login_type : String
deriving DecidableEq

/-- The credential record written by `authService.saveRetailerCredentials`
(part_003 version: `user_id, retailer, login_id, login_type, password`).
`login_id` is optional because the webhook passes
`userSession.phone_number` / `userSession.email`, which may be absent. -/
structure SavedCredential where
  retailer : String
  login_id : Option String
  password : String
  login_type : String
deriving DecidableEq

/-- A combined cart item row, as consumed from
`cartService.getCartItemsCombined(cart.id)` (external collaborator). -/
structure CartItem where
  product_name : String
  unit : String
  total_quantity : Nat
  selected_retailer : Option String := none
  selected_product_name : Option String := none
  selected_product_price : Nat := 0
deriving DecidableEq

/-- The user's active cart, as seen through `cartService.getActiveCart` and
`getCartItemsCombined`. -/
structure Cart where
  id : Nat
  items : List CartItem
deriving DecidableEq

/-- A scraped price row from `aiService.scrapePriceComparison`. -/
structure PriceRow where
  retailer : String
  price : String
  delivery_time : String
deriving DecidableEq

/-- The `users` table row fields the handlers read besides the session
(`user.retailer` — a column that does not exist in the schema, hence
always absent, but read by `handlePhoneNumberInput`/`handleEmailInput`). -/
structure User where
  retailer : Option String := none

/-- Answers of the external Cart/Auth/AI collaborators for one request, per
the specification's collaborator contracts. -/
structure Env where
  credentials : List StoredCredential
  activeCart : Option Cart
  priceComparison : String → List PriceRow
  mixedSuggestions : String → List Product
  hasSuggestionsFor : String → Bool

/-- Which branch of the `processMessage` STEP 3 direct pattern cascade
claims the (lowercased, trimmed) message — the Pattern Matcher.  The order
of constructors mirrors the order of the `if`/regex checks in the source. -/
inductive PatternResult where
  | clearSession
  | clearAll
  | helpCmd
  | stopCmd
  | showCartCmd
  | showPricesCmd
  | checkoutCmd
  | connectedRetailersCmd
  | loginCmd (retailer : String)
  | phoneMethodTok
  | emailMethodTok
  | resendTok
  | numericSelection (n : Nat) (item : String)
  | allSelection (n : Nat)
  | cancelCheckoutCmd
  | confirmOrderCmd
  | editCartCmd
  | retailerForItem (retailer item : String)
  | skipCmd (item : String)
  | addSelectedCmd
  | noMatch
deriving DecidableEq

/-- `processMessage` STEP 3: the prioritized direct pattern matches, in
source order.  Input is `message.toLowerCase().trim()`. -/
def patternRoute (m : String) : PatternResult :=
  if m = "clear session" ∨ m = "reset" then .clearSession
  else if m = "clear all" ∨ m = "reset all" then .clearAll
  else if m = "help" ∨ m = "start" then .helpCmd
  else if m = "stop" ∨ m = "unsubscribe" then .stopCmd
  else if m = "show cart" ∨ m = "view cart" then .showCartCmd
  else if m = "show prices" ∨ m = "prices" then .showPricesCmd
  else if m = "checkout" then .checkoutCmd
  else if m = "connected retailers" ∨ m = "show connected" ∨ m = "my retailers" ∨
      m = "my loginned apps" ∨ m = "my logged in apps" ∨ m = "logged in apps" then
    .connectedRetailersCmd
  else if strStartsWith m "login " then .loginCmd (jsTrim (String.mk (m.data.drop 6)))
  else if m = "phone" ∨ m = "1" then .phoneMethodTok
  else if m = "email" ∨ m = "2" then .emailMethodTok
  else if m = "resend otp" ∨ m = "resend" then .resendTok
  else
    match matchNumericFor m with
    | some (n, item) => .numericSelection n item
    | none =>
      match matchAllSel m with
      | some n => .allSelection n
      | none =>
        if m = "cancel checkout" ∨ m = "cancel order" then .cancelCheckoutCmd
        else if m = "confirm order" then .confirmOrderCmd
        else if m = "edit cart" then .editCartCmd
        else
          match matchWordFor m with
          | some (r, item) => .retailerForItem r item
          | none =>
            match matchSkip m with
            | some item => .skipCmd item
            | none =>
              if m = "add selected" then .addSelectedCmd else .noMatch

/-- What a resolution step did: which reply family was emitted, which
credentials were persisted, which cart additions happened.  Classifier
dispatch (STEP 6) is the out-of-scope boundary. -/
inductive Outcome where
  | sessionCleared
  | allDataCleared
  | helpShown
  | unsubscribed
  | cartShown
  | cartEmptyMsg
  | noActiveCartMsg
  | connectRetailersPrompt
  | pricesShown
  | noConnectedRetailers
  | connectedListShown
  | retailerListShown
  | retailerNotSupported (retailer : String)
  | alreadyConnected (retailer : String)
  | authMethodPrompt (retailer : String)
  | phoneNumberPrompt
  | emailAddrPrompt
  | invalidPhoneFormat
  | otpSent (phone : String)
  | invalidOtpFormat
  | authPhoneSuccess (saved : SavedCredential)
  | authPhoneErrorAfterSave (saved : SavedCredential)
  | invalidEmailFormat
  | passwordPrompt (email : String)
  | authEmailSuccess (saved : SavedCredential)
  | authEmailErrorAfterSave (saved : SavedCredential)
  | noActiveOtpRequest
  | otpResent
  | invalidSelectionNumber
  | noSuggestionsFor (item : String)
  | invalidSelectionCount (item : String) (available : Nat)
  | productChosen (item : String) (product : Product)
  | allChosen (n : Nat) (count : Nat)
  | orderAllSelected (n : Nat) (count : Nat)
  | orderItemSelected (item : String) (product : Product)
  | checkoutCancelled
  | orderConfirmed (groups : List (String × List CartItem))
  | checkoutItemShown (index : Nat)
  | finalCartShown
  | noActiveCheckoutSession
  | noPriceAvailable (retailer item : String)
  | retailerSelected (retailer item : String) (nextIndex : Nat)
  | skippedItem (item : String) (nextIndex : Nat)
  | noItemsSelected
  | noActiveCartFound
  | addedToCart (cartId : Nat) (items : List SelectedItem)
  | classifier
  | errorApology
deriving DecidableEq

/-- The credentials persisted by an outcome, if any (the save happens even
on the paths that subsequently fail while formatting the success reply). -/
def credentialsSaved : Outcome → Option SavedCredential
  | .authPhoneSuccess c => some c
  | .authPhoneErrorAfterSave c => some c
  | .authEmailSuccess c => some c
  | .authEmailErrorAfterSave c => some c
  | _ => none

/-- `handleShowCartIntent`: read-only; empty-cart guidance otherwise. -/
def showCartOutcome (env : Env) : Outcome :=
  match env.activeCart with
  | none => .cartEmptyMsg
  | some c => if c.items.isEmpty then .cartEmptyMsg else .cartShown

/-- The effective `handleShowPricesIntent` (the later duplicate definition
wins under JS hoisting): credentials gate first, then active-cart gate. -/
def showPricesOutcome (env : Env) : Outcome :=
  if env.credentials.isEmpty then .connectRetailersPrompt
  else
    match env.activeCart with
    | none => .noActiveCartMsg
    | some _ => .pricesShown

/-- `handleShowConnectedRetailers`. -/
def connectedOutcome (env : Env) : Outcome :=
  if env.credentials.isEmpty then .noConnectedRetailers else .connectedListShown

/-- `handleCheckoutIntent`: requires ≥1 authenticated retailer and a
non-empty (combined) cart; on success merges the checkout keys with the
item-name snapshot and index 0 into the session. -/
def handleCheckoutIntent (s : Session) (env : Env) : Outcome × Session :=
  if env.credentials.isEmpty then (.connectRetailersPrompt, s)
  else
    match env.activeCart with
    | none => (.cartEmptyMsg, s)
    | some cart =>
      if cart.items.isEmpty then (.cartEmptyMsg, s)
      else
        (.checkoutItemShown 0,
         mergeSession s
           { checkout_mode := some true
             checkout_step := some "item_selection"
             checkout_items := some (cart.items.map CartItem.product_name)
             checkout_current_item := some 0 })

/-- `handleAuthenticationIntent` reached from the `login <retailer>`
pattern: falsy retailer shows the list; unsupported retailer errors;
existing credentials short-circuit; otherwise only `retailer` is merged
into the session (the method-selection prompt). -/
def handleAuthenticationIntent (retailer : String) (s : Session) (env : Env) :
    Outcome × Session :=
  if retailer = "" then (.retailerListShown, s)
  else
    match getRetailerByName retailer with
    | none => (.retailerNotSupported retailer, s)
    | some _ =>
      if env.credentials.any (fun c => c.retailer = retailer) then
        (.alreadyConnected retailer, s)
      else
        (.authMethodPrompt retailer, mergeSession s { retailer := some retailer })

/-- `handlePhoneLoginMethod`: unconditionally merges the phone-login flow
keys, defaulting the retailer to `'zepto'` when the session has none. -/
def handlePhoneLoginMethod (s : Session) : Outcome × Session :=
  (.phoneNumberPrompt,
   mergeSession s
     { auth_flow := some .phoneLogin
       auth_step := some .phoneInput
       retailer := some (jsOrStr s.retailer "zepto") })

/-- `handleEmailLoginMethod`: unconditionally merges the email-login flow
keys (no retailer key is written here). -/
def handleEmailLoginMethod (s : Session) : Outcome × Session :=
  (.emailAddrPrompt,
   mergeSession s { auth_flow := some .emailLogin, auth_step := some .emailInput })

/-- `handleResendOTP`: only actionable at `phone_login`/`otp_input`. -/
def handleResendOTP (s : Session) : Outcome × Session :=
  if s.auth_flow = some AuthFlow.phoneLogin ∧ s.auth_step = some AuthStep.otpInput then
    (.otpResent, s)
  else (.noActiveOtpRequest, s)

/-- `handlePhoneNumberInput` (STEP 4, `phone_login`/`phone_input`): invalid
format re-prompts with the session untouched; a valid number merges the
`otp_input` step, the phone number and `user.retailer || 'zepto'`. -/
def handlePhoneNumberInput (msg : String) (user : User) (s : Session) :
    Outcome × Session :=
  if !(validPhone msg) then (.invalidPhoneFormat, s)
  else
    (.otpSent msg,
     mergeSession s
       { auth_flow := some .phoneLogin
         auth_step := some .otpInput
         phone_number := some msg
         retailer := some (jsOrStr user.retailer "zepto") })

/-- `handleOTPInput` (STEP 4, `phone_login`/`otp_input`): anything but six
digits re-prompts with the session untouched; any six-digit code is
accepted without comparison to an issued OTP (this function has no issued
OTP to compare against, mirroring the source), credentials are saved with
the session's pending phone number as login id and type `'phone'`, and the
empty object is merged into the session. -/
def handleOTPInput (code : String) (s : Session) : Outcome × Session :=
  if !(isSixDigits code) then (.invalidOtpFormat, s)
  else
    let retailer := jsOrStr s.retailer "zepto"
    let saved : SavedCredential := ⟨retailer, s.phone_number, "otp_" ++ code, "phone"⟩
    let outc :=
      match getRetailerByName retailer with
      | some _ => Outcome.authPhoneSuccess saved
      | none => Outcome.authPhoneErrorAfterSave saved
    (outc, mergeSession s {})

/-- `handleEmailInput` (STEP 4, `email_login`/`email_input`). -/
def handleEmailInput (msg : String) (user : User) (s : Session) :
    Outcome × Session :=
  if !(validEmail msg) then (.invalidEmailFormat, s)
  else
    (.passwordPrompt msg,
     mergeSession s
       { auth_flow := some .emailLogin
         auth_step := some .passwordInput
         email := some msg
         retailer := some (jsOrStr user.retailer "zepto") })

/-- `handlePasswordInput` (STEP 4, `email_login`/`password_input`): no
format validation; credentials are saved with the session's pending email
as login id and type `'email'`, and the empty object is merged into the
session. -/
def handlePasswordInput (pw : String) (s : Session) : Outcome × Session :=
  let retailer := jsOrStr s.retailer "zepto"
  let saved : SavedCredential := ⟨retailer, s.email, pw, "email"⟩
  let outc :=
    match getRetailerByName retailer with
    | some _ => Outcome.authEmailSuccess saved
    | none => Outcome.authEmailErrorAfterSave saved
  (outc, mergeSession s {})

/-- `handleRetailerSelectionForCheckout`: gated on `checkout_mode`; missing
or `'N/A'` price re-prompts; a null active cart throws into the generic
apology before any session write; otherwise the full session is spread
back with `checkout_current_item` advanced by one. -/
def handleRetailerSelectionForCheckout (retailer item : String) (s : Session)
    (env : Env) : Outcome × Session :=
  if !(truthyCheckout s) then (.noActiveCheckoutSession, s)
  else
    match (env.priceComparison item).find? (fun p => jsToLower p.retailer = retailer) with
    | none => (.noPriceAvailable retailer item, s)
    | some pr =>
      if pr.price = "N/A" then (.noPriceAvailable retailer item, s)
      else
        match env.activeCart with
        | none => (.errorApology, s)
        | some _ =>
          let nextIndex := (s.checkout_current_item.getD 0) + 1
          (.retailerSelected retailer item nextIndex,
           mergeSession s { s with checkout_current_item := some nextIndex })

/-- `handleSkipItem`: gated on `checkout_mode`; a null active cart throws
into the generic apology before the session write; otherwise advances
`checkout_current_item` by one. -/
def handleSkipItem (item : String) (s : Session) (env : Env) : Outcome × Session :=
  if !(truthyCheckout s) then (.noActiveCheckoutSession, s)
  else
    match env.activeCart with
    | none => (.errorApology, s)
    | some _ =>
      let nextIndex := (s.checkout_current_item.getD 0) + 1
      (.skippedItem item nextIndex,
       mergeSession s { s with checkout_current_item := some nextIndex })

/-- Insertion-ordered grouping object `retailerCarts[item.selected_retailer]`. -/
def groupAdd (groups : List (String × List CartItem)) (r : String) (it : CartItem) :
    List (String × List CartItem) :=
  match groups with
  | [] => [(r, [it])]
  | (r0, its) :: rest =>
    if r0 = r then (r0, its ++ [it]) :: rest else (r0, its) :: groupAdd rest r it

/-- `handleConfirmOrder`'s grouping loop: items without a
`selected_retailer` are dropped; the rest are grouped by retailer in
first-seen order. -/
def groupByRetailer (items : List CartItem) : List (String × List CartItem) :=
  items.foldl
    (fun gs it =>
      match it.selected_retailer with
      | some r => groupAdd gs r it
      | none => gs)
    []

/-- `handleConfirmOrder`: no precondition check of any kind — with a null
active cart the `cart.id` dereference throws into the generic apology;
otherwise the retailer grouping and the confirmed-order reply happen
unconditionally and the empty object is merged into the session. -/
def handleConfirmOrder (s : Session) (env : Env) : Outcome × Session :=
  match env.activeCart with
  | none => (.errorApology, s)
  | some cart => (.orderConfirmed (groupByRetailer cart.items), mergeSession s {})

/-- `handleEditCart`: gated on `checkout_mode`; the session is spread back
with `checkout_current_item` reset to 0 before the cart is fetched. -/
def handleEditCart (s : Session) (env : Env) : Outcome × Session :=
  if !(truthyCheckout s) then (.noActiveCheckoutSession, s)
  else
    let s2 := mergeSession s { s with checkout_current_item := some 0 }
    match env.activeCart with
    | none => (.errorApology, s2)
    | some cart =>
      if cart.items.isEmpty then (.finalCartShown, s2)
      else (.checkoutItemShown 0, s2)

/-- The `selectedItems[existingIndex] = entry` / `selectedItems.push(entry)`
update of `handleOrderModeProductSelection`, keyed by the spread `name`. -/
def upsertSelectedItem (sel : List SelectedItem) (entry : SelectedItem)
    (itemName : String) : List SelectedItem :=
  match sel.findIdx? (fun it => it.base.map OrderItem.name = some itemName) with
  | some i => sel.set i entry
  | none => sel ++ [entry]

/-- `handleOrderModeProductSelection`: `all N` rebuilds
`selected_order_items` from the order items that have at least `n`
suggestions; a single selection validates the index against the item's
suggestions and upserts the selection; both paths spread the whole session
back with the new `selected_order_items`. -/
def handleOrderModeProductSelection (n : Nat) (itemName : String)
    (selectAll : Bool) (s : Session) (env : Env) : Outcome × Session :=
  if selectAll then
    let orderItems := s.order_items.getD []
    let selected := orderItems.filterMap fun it =>
      let sugg := env.mixedSuggestions it.name
      if n ≤ sugg.length then some ⟨some it, sugg.get? (n - 1)⟩ else none
    (.orderAllSelected n selected.length,
     mergeSession s { s with selected_order_items := some selected })
  else
    let sugg := env.mixedSuggestions itemName
    if sugg.length < n then (.invalidSelectionCount itemName sugg.length, s)
    else
      let product := sugg.get? (n - 1)
      let entry : SelectedItem :=
        ⟨(s.order_items.getD []).find? (fun it => it.name = itemName), product⟩
      let selected := upsertSelectedItem (s.selected_order_items.getD []) entry itemName
      (.orderItemSelected itemName (product.getD ⟨"", "", "", ""⟩),
       mergeSession s { s with selected_order_items := some selected })

/-- The effective `handleProductSelection` (the later duplicate definition
wins under JS hoisting): invalid numbers re-prompt; `order_mode` routes to
the order-mode selection; otherwise selections run against the active cart
without touching the session. -/
def handleProductSelection (n : Nat) (itemName : String) (selectAll : Bool)
    (s : Session) (env : Env) : Outcome × Session :=
  if n < 1 then (.invalidSelectionNumber, s)
  else if truthyOrder s then handleOrderModeProductSelection n itemName selectAll s env
  else
    match env.activeCart with
    | none => (.noActiveCartMsg, s)
    | some cart =>
      if selectAll then
        let cnt :=
          (cart.items.filter fun it =>
            n ≤ (env.mixedSuggestions it.product_name).length).length
        (.allChosen n cnt, s)
      else if !(env.hasSuggestionsFor itemName) then (.noSuggestionsFor itemName, s)
      else
        let sugg := env.mixedSuggestions itemName
        if sugg.length < n then (.invalidSelectionCount itemName sugg.length, s)
        else (.productChosen itemName (sugg.getD (n - 1) ⟨"", "", "", ""⟩), s)

/-- `handleAddSelectedToCart`: falsy `order_mode` or an absent
`selected_order_items` key errors with `"No items selected"`; a falsy
`order_cart_id` errors with `"No active cart found"`; otherwise exactly the
entries of `selected_order_items` are added to the pre-created cart and the
empty object is merged into the session. -/
def handleAddSelectedToCart (s : Session) : Outcome × Session :=
  if !(truthyOrder s) || s.selected_order_items.isNone then (.noItemsSelected, s)
  else
    let cid := s.order_cart_id.getD 0
    if cid = 0 then (.noActiveCartFound, s)
    else (.addedToCart cid (s.selected_order_items.getD []), mergeSession s {})

/-- `processMessage` STEPs 3–6 for a text message from an existing user:
the direct pattern cascade, then active-auth-flow dispatch, then stale
session clearing, then fall-through to the AI classifier (the out-of-scope
boundary, reported as `Outcome.classifier` with the session as of that
point). -/
def resolveMessage (msg : String) (user : User) (s : Session) (env : Env) :
    Outcome × Session :=
  let m := jsTrim (jsToLower msg)
  match patternRoute m with
  | .clearSession => (.sessionCleared, mergeSession s {})
  | .clearAll => (.allDataCleared, mergeSession s {})
  | .helpCmd => (.helpShown, s)
  | .stopCmd => (.unsubscribed, s)
  | .showCartCmd => (showCartOutcome env, s)
  | .showPricesCmd => (showPricesOutcome env, s)
  | .checkoutCmd => handleCheckoutIntent s env
  | .connectedRetailersCmd => (connectedOutcome env, s)
  | .loginCmd r => handleAuthenticationIntent r s env
  | .phoneMethodTok => handlePhoneLoginMethod s
  | .emailMethodTok => handleEmailLoginMethod s
  | .resendTok => handleResendOTP s
  | .numericSelection n item => handleProductSelection n item false s env
  | .allSelection n => handleProductSelection n "all" true s env
  | .cancelCheckoutCmd => (.checkoutCancelled, mergeSession s {})
  | .confirmOrderCmd => handleConfirmOrder s env
  | .editCartCmd => handleEditCart s env
  | .retailerForItem r item => handleRetailerSelectionForCheckout r item s env
  | .skipCmd item => handleSkipItem item s env
  | .addSelectedCmd => handleAddSelectedToCart s
  | .noMatch =>
    match s.auth_flow, s.auth_step with
    | some .phoneLogin, some .phoneInput => handlePhoneNumberInput msg user s
    | some .phoneLogin, some .otpInput => handleOTPInput msg s
    | some .emailLogin, some .emailInput => handleEmailInput msg user s
    | some .emailLogin, some .passwordInput => handlePasswordInput msg s
    | some _, none => (.classifier, mergeSession s {})
    | _, _ => (.classifier, s)

/-! ### The specification's P2 property (single active flow) -/

/-- How many flows are simultaneously tagged active in a session: the spec
maps `auth_flow`/`checkout_mode`/`order_mode` to `flowKind`. -/
def activeFlowCount (s : Session) : Nat :=
  (if s.auth_flow.isSome then 1 else 0) +
    (if truthyCheckout s then 1 else 0) +
    (if truthyOrder s then 1 else 0)

/-- The spec's P2 output invariant: either no flow is active, or exactly one
is and it carries a valid step (`auth_step` for auth,
`checkout_step = 'item_selection'` for checkout; the order flow's
`suggestion_selection` step is implicit in `order_mode` itself). -/
def singleActiveFlow (s : Session) : Bool :=
  decide (activeFlowCount s = 0) ||
    (decide (activeFlowCount s = 1) &&
      (!s.auth_flow.isSome || s.auth_step.isSome) &&
      (!(truthyCheckout s) || decide (s.checkout_step = some "item_selection")))

/-! ### Sample data for concrete evaluations -/

/-- A user row (the `retailer` column does not exist, so it is absent). -/
def defaultUser : User := {}

/-- A session mid-way through the phone auth flow, awaiting the OTP. -/
def sampleAuthSession : Session :=
  { auth_flow := some .phoneLogin, auth_step := some .otpInput,
    retailer := some "zepto", phone_number := some "+919876543210" }

/-- A session at auth `phone_input`, before any phone number was given. -/
def authMidSession : Session :=
  { auth_flow := some .phoneLogin, auth_step := some .phoneInput,
    retailer := some "zepto" }

/-- A collaborator environment with no credentials and no cart. -/
def emptyEnv : Env :=
  { credentials := [], activeCart := none,
    priceComparison := fun _ => [], mixedSuggestions := fun _ => [],
    hasSuggestionsFor := fun _ => false }

/-- A combined cart row for milk with a retailer already selected. -/
def milkRow : CartItem :=
  { product_name := "milk", unit := "L", total_quantity := 1,
    selected_retailer := some "zepto",
    selected_product_name := some "Amul Taaza 1L",
    selected_product_price := 60 }

/-- A combined cart row for bread with no retailer selected yet. -/
def breadRow : CartItem :=
  { product_name := "bread", unit := "loaf", total_quantity := 1 }

/-- An environment with one authenticated retailer and a two-item cart. -/
def checkoutEnv : Env :=
  { credentials := [⟨"zepto", "+919876543210", "phone"⟩],
    activeCart := some ⟨5, [milkRow, breadRow]⟩,
    priceComparison := fun _ => [], mixedSuggestions := fun _ => [],
    hasSuggestionsFor := fun _ => false }

/-- A checkout session at the first of two items (walk incomplete). -/
def checkoutMidSession : Session :=
  { checkout_mode := some true, checkout_step := some "item_selection",
    checkout_items := some ["milk", "bread"], checkout_current_item := some 0 }

/-- Order-flow fixtures: two requested items, one explicit selection. -/
def milkOrderItem : OrderItem := ⟨"milk", 1, "L"⟩

/-- The second requested order item, never selected by the user. -/
def breadOrderItem : OrderItem := ⟨"bread", 1, "loaf"⟩

/-- The product suggestion the user picked for milk. -/
def milkProduct : Product := ⟨"Amul Taaza 1L", "60", "zepto", "10 min"⟩

/-- The `selected_order_items` entry recorded for milk. -/
def milkSelection : SelectedItem := ⟨some milkOrderItem, some milkProduct⟩

/-- An order-flow session: milk and bread requested, only milk selected. -/
def orderModeSession : Session :=
  { order_mode := some true,
    order_items := some [milkOrderItem, breadOrderItem],
    selected_order_items := some [milkSelection],
    order_cart_id := some 7 }

/-! ### Helper lemmas -/

/-- `mKey` can turn a present key absent never: its presence is the
disjunction of the update's and the stored blob's. -/
theorem mKey_isSome {α : Type} (a b : Option α) :
    (mKey a b).isSome = (b.isSome || a.isSome) := by
  cases b <;> rfl

/-- A message on which the numeric-for matcher fails cannot be one on which
it succeeded. -/
theorem numericFor_of_none {m : String} {x : Nat × String}
    (hm : matchNumericFor m = some x) (h0 : matchNumericFor m = none) : False := by
  rw [h0] at hm
  exact Option.noConfusion hm

/-- A successful numeric-for match forces the message to start with a
digit. -/
theorem matchNumericFor_head_digit {m : String} {x : Nat × String}
    (hm : matchNumericFor m = some x) :
    ∃ c cs, m.data = c :: cs ∧ c.isDigit = true := by
  unfold matchNumericFor at hm
  cases hcs : m.data with
  | nil =>
    rw [hcs] at hm
    simp at hm
  | cons c t =>
    rw [hcs] at hm
    by_cases hd : c.isDigit = true
    · exact ⟨c, t, rfl, hd⟩
    · simp [List.takeWhile_cons, hd] at hm

/-- A message recognised by `startsWith('login ')` begins with `'l'`. -/
theorem strStartsWith_login_head {m : String}
    (h : strStartsWith m "login " = true) : ∃ cs, m.data = 'l' :: cs := by
  unfold strStartsWith at h
  have hdata : ("login " : String).data = ['l', 'o', 'g', 'i', 'n', ' '] := rfl
  rw [hdata] at h
  cases hm : m.data with
  | nil =>
    rw [hm] at h
    simp [List.isPrefixOf] at h
  | cons c t =>
    rw [hm] at h
    simp only [List.isPrefixOf, Bool.and_eq_true, beq_iff_eq] at h
    exact ⟨t, by rw [← h.1]⟩

/-! ### Claim theorems -/

/-- Claim C1: the emergency reset commands `clear session` and `reset` are
claimed to leave the canonical empty session behind for every prior
session state.  In the code the "clear" is
`updateUserSession(user.id, {})`, a jsonb merge of the empty object — a
no-op — so the stored session survives unchanged; in particular a session
mid-way through the auth flow is still there after `clear session`. -/
theorem clear_session_and_reset_leave_session_unchanged :
    ∀ (u : User) (s : Session) (env : Env),
      resolveMessage "clear session" u s env = (Outcome.sessionCleared, s) ∧
      resolveMessage "reset" u s env = (Outcome.sessionCleared, s) ∧
      sampleAuthSession ≠ emptySession := by
  intro u s env
  exact ⟨rfl, rfl, by decide⟩

/-- Claim C10: `updateUserSession` is the jsonb shallow merge
`COALESCE(session_data,'{}') || $1`: merging the empty partial is the
identity, and a key present in the stored session is still present after
merging any partial — no code path through `updateUserSession` can remove a
previously set flow key. -/
theorem updateUserSession_merge_identity_and_never_removes :
    ∀ (s p : Session),
      mergeSession s {} = s ∧
      (mergeSession s p).auth_flow.isSome = (p.auth_flow.isSome || s.auth_flow.isSome) ∧
      (mergeSession s p).auth_step.isSome = (p.auth_step.isSome || s.auth_step.isSome) ∧
      (mergeSession s p).checkout_mode.isSome = (p.checkout_mode.isSome || s.checkout_mode.isSome) ∧
      (mergeSession s p).order_mode.isSome = (p.order_mode.isSome || s.order_mode.isSome) ∧
      (mergeSession s p).phone_number.isSome = (p.phone_number.isSome || s.phone_number.isSome) ∧
      (mergeSession s p).email.isSome = (p.email.isSome || s.email.isSome) ∧
      (mergeSession s p).retailer.isSome = (p.retailer.isSome || s.retailer.isSome) := by
  intro s p
  exact ⟨rfl, mKey_isSome s.auth_flow p.auth_flow, mKey_isSome s.auth_step p.auth_step,
    mKey_isSome s.checkout_mode p.checkout_mode, mKey_isSome s.order_mode p.order_mode,
    mKey_isSome s.phone_number p.phone_number, mKey_isSome s.email p.email,
    mKey_isSome s.retailer p.retailer⟩

/-- Claim C2: completing `otp_input` with a six-digit code, or
`password_input` with any text, is claimed to end with `flowKind = none`
and no dangling `retailer`/`phone_number`/`email`.  Both terminal handlers
"clear" via `updateUserSession(user.id, {})`, the no-op jsonb merge, so the
session — flow keys, retailer, phone number and email included — survives
exactly as it was. -/
theorem auth_terminal_steps_do_not_clear_session :
    ∀ (s : Session) (code pw : String),
      isSixDigits code = true →
      (handleOTPInput code s).2 = s ∧ (handlePasswordInput pw s).2 = s := by
  intro s code pw h
  constructor
  · simp [handleOTPInput, h, mergeSession_empty]
  · simp [handlePasswordInput, mergeSession_empty]

/-- Claim C2 witness: concrete evaluation at a session pending OTP entry
and the six-digit code `482913`. -/
theorem auth_terminal_steps_witness :
    isSixDigits "482913" = true ∧
      ((handleOTPInput "482913" sampleAuthSession).2 = sampleAuthSession ∧
        (handlePasswordInput "hunter2" sampleAuthSession).2 = sampleAuthSession) :=
  ⟨by decide,
   auth_terminal_steps_do_not_clear_session sampleAuthSession "482913" "hunter2" (by decide)⟩

/-- Claim C5: at `otp_input`, anything but exactly six digits gets the
validation error with the session untouched, while any six-digit code is
accepted — `handleOTPInput` has no issued OTP to compare against — and the
persisted credential carries the session's pending phone number as login id
and login type `'phone'`. -/
theorem otp_input_validation_and_unconditional_acceptance :
    ∀ (s : Session) (code : String),
      (isSixDigits code = false →
        handleOTPInput code s = (Outcome.invalidOtpFormat, s)) ∧
      (isSixDigits code = true →
        credentialsSaved (handleOTPInput code s).1 =
          some ⟨jsOrStr s.retailer "zepto", s.phone_number, "otp_" ++ code, "phone"⟩) := by
  intro s code
  constructor
  · intro h
    simp [handleOTPInput, h]
  · intro h
    rcases hr : getRetailerByName (jsOrStr s.retailer "zepto") with _ | r <;>
      simp [handleOTPInput, h, hr, credentialsSaved]

/-- Claim C5 witness: concrete evaluations at the pending-OTP session, with
a malformed code and with the six-digit code `482913`. -/
theorem otp_input_validation_witness :
    (isSixDigits "12ab56" = false ∧
      handleOTPInput "12ab56" sampleAuthSession = (Outcome.invalidOtpFormat, sampleAuthSession)) ∧
    (isSixDigits "482913" = true ∧
      credentialsSaved (handleOTPInput "482913" sampleAuthSession).1 =
        some ⟨"zepto", some "+919876543210", "otp_482913", "phone"⟩) :=
  ⟨⟨by decide,
    (otp_input_validation_and_unconditional_acceptance sampleAuthSession "12ab56").1 (by decide)⟩,
   ⟨by decide,
    (otp_input_validation_and_unconditional_acceptance sampleAuthSession "482913").2 (by decide)⟩⟩

/-- Claim C9: any message the numeric `^(\d+)\s+for\s+(.+)$` matcher
accepts is routed by the pattern cascade to the numeric product-selection
branch and never to the retailer-for-item branch — the numeric regex is
checked strictly earlier, and none of the still-earlier exact commands or
the `login ` prefix can start with a digit.  The cascade takes no session
argument, so this holds regardless of the active flow. -/
theorem numeric_for_pattern_takes_precedence :
    ∀ (m : String) (n : Nat) (item : String),
      matchNumericFor m = some (n, item) →
      patternRoute m = PatternResult.numericSelection n item ∧
        ∀ r i, patternRoute m ≠ PatternResult.retailerForItem r i := by
  intro m n item hm
  have h1 : ¬(m = "clear session" ∨ m = "reset") := by
    rintro (rfl | rfl) <;> exact numericFor_of_none hm (by decide)
  have h2 : ¬(m = "clear all" ∨ m = "reset all") := by
    rintro (rfl | rfl) <;> exact numericFor_of_none hm (by decide)
  have h3 : ¬(m = "help" ∨ m = "start") := by
    rintro (rfl | rfl) <;> exact numericFor_of_none hm (by decide)
  have h4 : ¬(m = "stop" ∨ m = "unsubscribe") := by
    rintro (rfl | rfl) <;> exact numericFor_of_none hm (by decide)
  have h5 : ¬(m = "show cart" ∨ m = "view cart") := by
    rintro (rfl | rfl) <;> exact numericFor_of_none hm (by decide)
  have h6 : ¬(m = "show prices" ∨ m = "prices") := by
    rintro (rfl | rfl) <;> exact numericFor_of_none hm (by decide)
  have h7 : ¬(m = "checkout") := by
    rintro rfl
    exact numericFor_of_none hm (by decide)
  have h8 : ¬(m = "connected retailers" ∨ m = "show connected" ∨ m = "my retailers" ∨
      m = "my loginned apps" ∨ m = "my logged in apps" ∨ m = "logged in apps") := by
    rintro (rfl | rfl | rfl | rfl | rfl | rfl) <;> exact numericFor_of_none hm (by decide)
  have h9 : ¬(strStartsWith m "login " = true) := by
    intro hL
    obtain ⟨cs, hcs⟩ := strStartsWith_login_head hL
    obtain ⟨c, cs2, hc, hdig⟩ := matchNumericFor_head_digit hm
    rw [hc] at hcs
    injection hcs with hch _
    rw [hch] at hdig
    exact absurd hdig (by decide)
  have h10 : ¬(m = "phone" ∨ m = "1") := by
    rintro (rfl | rfl) <;> exact numericFor_of_none hm (by decide)
  have h11 : ¬(m = "email" ∨ m = "2") := by
    rintro (rfl | rfl) <;> exact numericFor_of_none hm (by decide)
  have h12 : ¬(m = "resend otp" ∨ m = "resend") := by
    rintro (rfl | rfl) <;> exact numericFor_of_none hm (by decide)
  have hroute : patternRoute m = PatternResult.numericSelection n item := by
    unfold patternRoute
    simp only [if_neg h1, if_neg h2, if_neg h3, if_neg h4, if_neg h5, if_neg h6,
      if_neg h7, if_neg h8, if_neg h9, if_neg h10, if_neg h11, if_neg h12, hm]
  refine ⟨hroute, ?_⟩
  intro r i
  rw [hroute]
  simp

/-- Claim C9 witness: the headline input `3 for milk`. -/
theorem numeric_for_pattern_takes_precedence_witness :
    matchNumericFor "3 for milk" = some (3, "milk") ∧
      patternRoute "3 for milk" = PatternResult.numericSelection 3 "milk" :=
  ⟨by decide, (numeric_for_pattern_takes_precedence "3 for milk" 3 "milk" (by decide)).1⟩

/-- Claim C4 counterexample: `confirm order` with the checkout walk at item
0 of 2 is not rejected — the handler unconditionally groups the
retailer-selected items and emits the terminal confirmed-order reply (and
the attempted session clear merges the empty object, leaving the session
unchanged). -/
theorem confirm_order_mid_walk_not_rejected :
    checkoutMidSession.checkout_current_item.getD 0 <
        (checkoutMidSession.checkout_items.getD []).length ∧
      resolveMessage "confirm order" defaultUser checkoutMidSession checkoutEnv =
        (Outcome.orderConfirmed [("zepto", [milkRow])], checkoutMidSession) := by
  exact ⟨by decide, by decide⟩

/-- Claim C4 (amended): `confirm order` is not guarded at all: whenever an
active cart exists, the handler groups the cart's retailer-selected items,
emits terminal success, and the attempted session clear is the no-op empty
merge — the session is returned unchanged, walk complete or not. -/
theorem confirm_order_is_unconditional :
    ∀ (u : User) (s : Session) (env : Env) (cart : Cart),
      env.activeCart = some cart →
      resolveMessage "confirm order" u s env =
        (Outcome.orderConfirmed (groupByRetailer cart.items), s) := by
  intro u s env cart h
  have hstep : resolveMessage "confirm order" u s env = handleConfirmOrder s env := rfl
  rw [hstep]
  simp [handleConfirmOrder, h, mergeSession_empty]

/-- Claim C4 witness: concrete evaluation mid-walk with an active cart. -/
theorem confirm_order_is_unconditional_witness :
    checkoutEnv.activeCart = some ⟨5, [milkRow, breadRow]⟩ ∧
      resolveMessage "confirm order" defaultUser checkoutMidSession checkoutEnv =
        (Outcome.orderConfirmed (groupByRetailer [milkRow, breadRow]), checkoutMidSession) :=
  ⟨rfl,
   confirm_order_is_unconditional defaultUser checkoutMidSession checkoutEnv
     ⟨5, [milkRow, breadRow]⟩ rfl⟩

/-- Claim C3 counterexample: resolving `checkout` from a session mid-way
through the auth flow (with credentials and a non-empty cart) outputs a
session with both `auth_flow` and `checkout_mode` set — two active flows,
violating the claimed single-active-flow output invariant. -/
theorem checkout_on_top_of_auth_flow_breaks_single_flow :
    singleActiveFlow (resolveMessage "checkout" defaultUser authMidSession checkoutEnv).2 = false ∧
      (resolveMessage "checkout" defaultUser authMidSession checkoutEnv).2.auth_flow =
        some AuthFlow.phoneLogin ∧
      (resolveMessage "checkout" defaultUser authMidSession checkoutEnv).2.checkout_mode =
        some true := by
  exact ⟨by decide, by decide, by decide⟩

/-- Claim C3 (amended): starting a new flow merges rather than overwrites:
the `checkout` entry always outputs `checkout_mode = true` with the valid
step `item_selection`, but the previous flow's `auth_flow`/`auth_step`/
`order_mode` keys survive the merge unchanged, so the output can carry two
active flow tags at once. -/
theorem checkout_entry_merges_rather_than_overwrites :
    ∀ (u : User) (s : Session) (env : Env) (cart : Cart),
      env.credentials ≠ [] → env.activeCart = some cart → cart.items ≠ [] →
      ((resolveMessage "checkout" u s env).2.checkout_mode = some true ∧
        (resolveMessage "checkout" u s env).2.checkout_step = some "item_selection" ∧
        (resolveMessage "checkout" u s env).2.auth_flow = s.auth_flow ∧
        (resolveMessage "checkout" u s env).2.auth_step = s.auth_step ∧
        (resolveMessage "checkout" u s env).2.order_mode = s.order_mode) := by
  intro u s env cart hc ha hi
  have hstep : resolveMessage "checkout" u s env = handleCheckoutIntent s env := rfl
  have hce : env.credentials.isEmpty = false := by
    cases hcc : env.credentials with
    | nil => exact absurd hcc hc
    | cons a l => rfl
  have hie : cart.items.isEmpty = false := by
    cases hii : cart.items with
    | nil => exact absurd hii hi
    | cons a l => rfl
  rw [hstep]
  simp [handleCheckoutIntent, hce, ha, hie, mergeSession, mKey]

/-- Claim C3 witness: concrete evaluation of the amended statement at the
mid-auth session and the one-retailer two-item environment. -/
theorem checkout_entry_merges_witness :
    (checkoutEnv.credentials ≠ [] ∧
        checkoutEnv.activeCart = some ⟨5, [milkRow, breadRow]⟩ ∧
        (⟨5, [milkRow, breadRow]⟩ : Cart).items ≠ []) ∧
      ((resolveMessage "checkout" defaultUser authMidSession checkoutEnv).2.checkout_mode =
          some true ∧
        (resolveMessage "checkout" defaultUser authMidSession checkoutEnv).2.checkout_step =
          some "item_selection" ∧
        (resolveMessage "checkout" defaultUser authMidSession checkoutEnv).2.auth_flow =
          authMidSession.auth_flow ∧
        (resolveMessage "checkout" defaultUser authMidSession checkoutEnv).2.auth_step =
          authMidSession.auth_step ∧
        (resolveMessage "checkout" defaultUser authMidSession checkoutEnv).2.order_mode =
          authMidSession.order_mode) :=
  ⟨⟨by decide, rfl, by decide⟩,
   checkout_entry_merges_rather_than_overwrites defaultUser authMidSession checkoutEnv
     ⟨5, [milkRow, breadRow]⟩ (by decide) rfl (by decide)⟩

/-- Claim C6 counterexample: the bare token `phone` sent with a completely
empty session (no flow awaiting a method choice) does not fall through to
the classifier — it starts the phone auth flow outright, defaulting the
retailer to `zepto`. -/
theorem bare_phone_token_without_pending_flow_starts_auth :
    emptySession.auth_flow = none ∧ emptySession.auth_step = none ∧
      resolveMessage "phone" defaultUser emptySession emptyEnv =
        (Outcome.phoneNumberPrompt,
         { auth_flow := some AuthFlow.phoneLogin, auth_step := some AuthStep.phoneInput,
           retailer := some "zepto" }) ∧
      (resolveMessage "phone" defaultUser emptySession emptyEnv).1 ≠ Outcome.classifier := by
  exact ⟨rfl, rfl, by decide, by decide⟩

/-- Claim C6 (amended): the bare tokens `phone`/`1` and `email`/`2` are
intercepted unconditionally by the pattern cascade, whatever the session:
they always (re)start the auth flow at `phone_input` (merging
`session.retailer || 'zepto'`) respectively `email_input`, and never reach
the classifier. -/
theorem login_method_tokens_always_start_auth_flow :
    ∀ (u : User) (s : Session) (env : Env),
      resolveMessage "phone" u s env =
        (Outcome.phoneNumberPrompt,
         mergeSession s
           { auth_flow := some AuthFlow.phoneLogin, auth_step := some AuthStep.phoneInput,
             retailer := some (jsOrStr s.retailer "zepto") }) ∧
      resolveMessage "1" u s env =
        (Outcome.phoneNumberPrompt,
         mergeSession s
           { auth_flow := some AuthFlow.phoneLogin, auth_step := some AuthStep.phoneInput,
             retailer := some (jsOrStr s.retailer "zepto") }) ∧
      resolveMessage "email" u s env =
        (Outcome.emailAddrPrompt,
         mergeSession s
           { auth_flow := some AuthFlow.emailLogin, auth_step := some AuthStep.emailInput }) ∧
      resolveMessage "2" u s env =
        (Outcome.emailAddrPrompt,
         mergeSession s
           { auth_flow := some AuthFlow.emailLogin, auth_step := some AuthStep.emailInput }) := by
  intro u s env
  exact ⟨rfl, rfl, rfl, rfl⟩

/-- Claim C7 counterexample: with milk and bread requested but only milk
selected, `add selected` adds only the milk selection to cart 7 and the
attempted session clear is the no-op empty merge — the session is returned
unchanged, not cleared, and bread is never added. -/
theorem add_selected_skips_unselected_and_keeps_session :
    resolveMessage "add selected" defaultUser orderModeSession emptyEnv =
        (Outcome.addedToCart 7 [milkSelection], orderModeSession) ∧
      orderModeSession ≠ emptySession ∧
      (orderModeSession.order_items.getD []).length = 2 ∧
      ([milkSelection].map fun it => it.base.map OrderItem.name) = [some "milk"] := by
  exact ⟨by decide, by decide, by decide, by decide⟩

/-- Claim C7 (amended): `add selected` requires a truthy `order_mode` AND a
present `selected_order_items` key (otherwise the no-items-selected error,
session untouched); with both present and a nonzero pre-created cart id it
adds exactly the recorded selections — items never selected are not added —
and the attempted clear merges the empty object, leaving the session
unchanged. -/
theorem add_selected_requires_selection_and_adds_only_selected :
    ∀ (u : User) (s : Session) (env : Env),
      ((truthyOrder s = false ∨ s.selected_order_items = none) →
        resolveMessage "add selected" u s env = (Outcome.noItemsSelected, s)) ∧
      (∀ sel cid, truthyOrder s = true → s.selected_order_items = some sel →
        s.order_cart_id = some cid → cid ≠ 0 →
        resolveMessage "add selected" u s env = (Outcome.addedToCart cid sel, s)) := by
  intro u s env
  have hstep : resolveMessage "add selected" u s env = handleAddSelectedToCart s := rfl
  constructor
  · intro h
    rw [hstep]
    rcases h with h | h <;> simp [handleAddSelectedToCart, h]
  · intro sel cid h1 h2 h3 h4
    rw [hstep]
    simp [handleAddSelectedToCart, h1, h2, h3, h4, mergeSession_empty]

/-- Claim C7 witness: concrete evaluations — no order flow at all, and the
milk/bread order with only milk selected. -/
theorem add_selected_witness :
    ((truthyOrder emptySession = false ∨ emptySession.selected_order_items = none) ∧
        resolveMessage "add selected" defaultUser emptySession emptyEnv =
          (Outcome.noItemsSelected, emptySession)) ∧
      (truthyOrder orderModeSession = true ∧
        orderModeSession.selected_order_items = some [milkSelection] ∧
        orderModeSession.order_cart_id = some 7 ∧ (7 : Nat) ≠ 0 ∧
        resolveMessage "add selected" defaultUser orderModeSession emptyEnv =
          (Outcome.addedToCart 7 [milkSelection], orderModeSession)) :=
  ⟨⟨Or.inl (by decide),
    (add_selected_requires_selection_and_adds_only_selected defaultUser emptySession
        emptyEnv).1 (Or.inl (by decide))⟩,
   ⟨by decide, rfl, rfl, by decide,
    (add_selected_requires_selection_and_adds_only_selected defaultUser orderModeSession
        emptyEnv).2 [milkSelection] 7 (by decide) rfl rfl (by decide)⟩⟩

/-- Claim C8: the `checkout` command starts the checkout flow only with ≥1
authenticated retailer and a non-empty (combined) cart: on success the
checkout keys are merged with the cart's item-name snapshot and index 0;
on any failed precondition a guidance message is emitted and the session is
returned untouched. -/
theorem checkout_command_preconditions_and_entry :
    ∀ (u : User) (s : Session) (env : Env),
      (env.credentials = [] →
        resolveMessage "checkout" u s env = (Outcome.connectRetailersPrompt, s)) ∧
      (env.credentials ≠ [] → env.activeCart = none →
        resolveMessage "checkout" u s env = (Outcome.cartEmptyMsg, s)) ∧
      (∀ cart, env.credentials ≠ [] → env.activeCart = some cart → cart.items = [] →
        resolveMessage "checkout" u s env = (Outcome.cartEmptyMsg, s)) ∧
      (∀ cart, env.credentials ≠ [] → env.activeCart = some cart → cart.items ≠ [] →
        resolveMessage "checkout" u s env =
          (Outcome.checkoutItemShown 0,
           mergeSession s
             { checkout_mode := some true, checkout_step := some "item_selection",
               checkout_items := some (cart.items.map CartItem.product_name),
               checkout_current_item := some 0 })) := by
  intro u s env
  have hstep : resolveMessage "checkout" u s env = handleCheckoutIntent s env := rfl
  refine ⟨?_, ?_, ?_, ?_⟩
  · intro h
    rw [hstep]
    simp [handleCheckoutIntent, h]
  · intro hc ha
    have hce : env.credentials.isEmpty = false := by
      cases hcc : env.credentials with
      | nil => exact absurd hcc hc
      | cons a l => rfl
    rw [hstep]
    simp [handleCheckoutIntent, hce, ha]
  · intro cart hc ha hi
    have hce : env.credentials.isEmpty = false := by
      cases hcc : env.credentials with
      | nil => exact absurd hcc hc
      | cons a l => rfl
    rw [hstep]
    simp [handleCheckoutIntent, hce, ha, hi]
  · intro cart hc ha hi
    have hce : env.credentials.isEmpty = false := by
      cases hcc : env.credentials with
      | nil => exact absurd hcc hc
      | cons a l => rfl
    have hie : cart.items.isEmpty = false := by
      cases hii : cart.items with
      | nil => exact absurd hii hi
      | cons a l => rfl
    rw [hstep]
    simp [handleCheckoutIntent, hce, ha, hie]

/-- Claim C8 witness: concrete evaluations — no credentials (guidance,
session untouched) and the one-retailer two-item environment (flow
started with the snapshot and index 0). -/
theorem checkout_command_witness :
    (emptyEnv.credentials = [] ∧
        resolveMessage "checkout" defaultUser sampleAuthSession emptyEnv =
          (Outcome.connectRetailersPrompt, sampleAuthSession)) ∧
      (checkoutEnv.credentials ≠ [] ∧
        checkoutEnv.activeCart = some ⟨5, [milkRow, breadRow]⟩ ∧
        (⟨5, [milkRow, breadRow]⟩ : Cart).items ≠ [] ∧
        resolveMessage "checkout" defaultUser emptySession checkoutEnv =
          (Outcome.checkoutItemShown 0,
           mergeSession emptySession
             { checkout_mode := some true, checkout_step := some "item_selection",
               checkout_items := some (([milkRow, breadRow] : List CartItem).map CartItem.product_name),
               checkout_current_item := some 0 })) :=
  ⟨⟨rfl,
    (checkout_command_preconditions_and_entry defaultUser sampleAuthSession emptyEnv).1 rfl⟩,
   ⟨by decide, rfl, by decide,
    (checkout_command_preconditions_and_entry defaultUser emptySession checkoutEnv).2.2.2
      ⟨5, [milkRow, breadRow]⟩ (by decide) rfl (by decide)⟩⟩

end ShopGenie
